import Mathlib

/-!
Verification development for the gray-smart-ambulance risk decision engine.

The definitions below are a shallow embedding of
`src/src/enhanced_risk_score.py` (the `TemporalAlertBuffer` and
`EnhancedRiskScorer` classes) and of the safety-override section of
`src/api/app.py` (`predict`).  Python floats are modelled as rationals
(`ℚ`); the Python feature dictionary is modelled as a structure of
optional fields, `features.get(key, default)` becoming `Option.getD`;
mutation of the per-patient buffer is modelled by explicit state passing
(`should_alert` returns the result together with the updated buffer).
-/

/-- Embeds the Python feature dictionary passed to
`EnhancedRiskScorer.calculate_risk_score`.  Only the keys the scorer
ever reads are modelled; an absent key is `none`, and each access site
applies the default used at that call site in the source. -/
structure Features where
  spo2_mean : Option ℚ := none
  spo2_min : Option ℚ := none
  spo2_slope : Option ℚ := none
  hr_mean : Option ℚ := none
  hr_max : Option ℚ := none
  hr_slope : Option ℚ := none
  sbp_mean : Option ℚ := none
  dbp_mean : Option ℚ := none
  motion_std : Option ℚ := none
  motion_max : Option ℚ := none
deriving Repr

/-- Embeds the `TemporalAlertBuffer` class: `buffer_size` and the mutable
list `recent_alerts`.  `buffer_size` is an `Int` because the Python
constructor accepts any integer (it performs no validation). -/
structure TemporalAlertBuffer where
  buffer_size : Int
  recent_alerts : List Bool
deriving Repr, DecidableEq

namespace TemporalAlertBuffer

/-- Embeds `TemporalAlertBuffer.__init__`: stores the size and starts
with an empty list.  The Python constructor performs no validation and
cannot raise, so the embedding is a total function. -/
def init (buffer_size : Int) : TemporalAlertBuffer :=
  { buffer_size := buffer_size, recent_alerts := [] }

/-- Embeds `TemporalAlertBuffer.should_alert`: append the current
prediction, pop the front element if the length exceeds `buffer_size`,
and return `all(recent_alerts)` when the length equals `buffer_size`,
else `False`.  The updated buffer is returned alongside the result. -/
def should_alert (b : TemporalAlertBuffer) (current_prediction : Bool) :
    Bool × TemporalAlertBuffer :=
  let alerts₁ := b.recent_alerts ++ [current_prediction]
  let alerts₂ := if (alerts₁.length : Int) > b.buffer_size then alerts₁.tail else alerts₁
  let b' : TemporalAlertBuffer := { b with recent_alerts := alerts₂ }
  if (alerts₂.length : Int) = b.buffer_size then (alerts₂.all id, b') else (false, b')

/-- Embeds `TemporalAlertBuffer.reset`: sets `recent_alerts` to `[]`. -/
def reset (b : TemporalAlertBuffer) : TemporalAlertBuffer :=
  { b with recent_alerts := [] }

/-- Folds a sequence of `should_alert` calls over a buffer, returning the
final buffer state. -/
def run (b : TemporalAlertBuffer) : List Bool → TemporalAlertBuffer
  | [] => b
  | x :: xs => ((b.should_alert x).2).run xs

/-- Folds a sequence of `should_alert` calls over a buffer, returning the
list of returned booleans in order. -/
def run_outputs (b : TemporalAlertBuffer) : List Bool → List Bool
  | [] => []
  | x :: xs => (b.should_alert x).1 :: ((b.should_alert x).2).run_outputs xs

end TemporalAlertBuffer

/-- Embeds the `self.THRESHOLDS` dictionary of `EnhancedRiskScorer`. -/
structure Thresholds where
  spo2_critical : ℚ
  spo2_warning : ℚ
  hr_critical : ℚ
  hr_warning : ℚ
  hr_low : ℚ
  sbp_critical : ℚ
  sbp_warning : ℚ

/-- The threshold values assigned in `EnhancedRiskScorer.__init__`. -/
def THRESHOLDS : Thresholds :=
  { spo2_critical := 88
    spo2_warning := 92
    hr_critical := 140
    hr_warning := 120
    hr_low := 50
    sbp_critical := 90
    sbp_warning := 100 }

/-- Embeds the `EnhancedRiskScorer` class state: configuration fields and
the owned `alert_buffer`. -/
structure EnhancedRiskScorer where
  alert_buffer : TemporalAlertBuffer
  min_confidence : ℚ
  min_abnormal_signals : Int
  motion_threshold : ℚ
  critical_override : Bool
deriving Repr

/-- The stage tags written into `debug_info['stage']` by
`calculate_risk_score` in `src/src/enhanced_risk_score.py`. -/
inductive Stage where
  | plausibility_failed
  | critical_override
  | insufficient_signals
  | motion_artifact
  | low_confidence
  | confirmed_alert
  | awaiting_confirmation
deriving Repr, DecidableEq

/-- Embeds the `(risk_score, should_alert, explanation, debug_info)`
tuple returned by `calculate_risk_score`.  The free-form explanation
string is not modelled; the `debug_info` entries the claims mention are
kept as structured fields. -/
structure RiskResult where
  risk_score : ℚ
  should_alert : Bool
  stage : Stage
  abnormal_signals : List String
  critical : Bool
deriving Repr, DecidableEq

namespace EnhancedRiskScorer

/-- Embeds `EnhancedRiskScorer.__init__`: builds the alert buffer from
`temporal_buffer_size` and stores the configuration.  Like the Python
constructor, it performs no validation and is total. -/
def init (temporal_buffer_size : Int) (min_confidence : ℚ)
    (min_abnormal_signals : Int) (motion_threshold : ℚ)
    (critical_override : Bool) : EnhancedRiskScorer :=
  { alert_buffer := TemporalAlertBuffer.init temporal_buffer_size
    min_confidence := min_confidence
    min_abnormal_signals := min_abnormal_signals
    motion_threshold := motion_threshold
    critical_override := critical_override }

/-- Embeds `EnhancedRiskScorer.count_abnormal_signals`: the list of
abnormal tags appended in source order, and its length. -/
def count_abnormal_signals (_s : EnhancedRiskScorer) (features : Features) :
    Nat × List String :=
  let abnormal : List String :=
    (if features.spo2_mean.getD 100 < THRESHOLDS.spo2_warning then ["spo2_low"] else []) ++
    (if features.spo2_min.getD 100 < THRESHOLDS.spo2_critical then ["spo2_critical"] else []) ++
    (if features.hr_mean.getD 70 > THRESHOLDS.hr_warning then ["hr_high"] else []) ++
    (if features.hr_max.getD 100 > THRESHOLDS.hr_critical then ["hr_critical"] else []) ++
    (if features.sbp_mean.getD 120 < THRESHOLDS.sbp_warning then ["sbp_low"] else []) ++
    (if features.spo2_slope.getD 0 < -(1/2 : ℚ) then ["spo2_dropping"] else []) ++
    (if features.hr_slope.getD 0 > (1/2 : ℚ) then ["hr_rising"] else [])
  (abnormal.length, abnormal)

/-- Embeds `EnhancedRiskScorer.check_critical_condition`: returns
`(is_critical, reason)` following the source's first-match order. -/
def check_critical_condition (_s : EnhancedRiskScorer) (features : Features) :
    Bool × String :=
  if features.spo2_min.getD 100 < THRESHOLDS.spo2_critical then
    (true, "Critical hypoxemia (SpO2 < 88%)")
  else if features.hr_max.getD 100 > THRESHOLDS.hr_critical then
    (true, "Critical tachycardia (HR > 140)")
  else if features.sbp_mean.getD 120 < THRESHOLDS.sbp_critical then
    (true, "Critical hypotension (SBP < 90)")
  else if features.spo2_mean.getD 100 < THRESHOLDS.spo2_warning ∧
      features.hr_mean.getD 70 > THRESHOLDS.hr_warning then
    (true, "Combined cardiopulmonary stress")
  else
    (false, "")

/-- Embeds `EnhancedRiskScorer.check_physiological_plausibility`:
returns `(is_plausible, reason)`.  Note the differing per-call-site
defaults for `spo2_mean` (95 in the first check, 100 in the second),
exactly as in the source. -/
def check_physiological_plausibility (_s : EnhancedRiskScorer)
    (features : Features) : Bool × String :=
  if features.hr_mean.getD 70 < THRESHOLDS.hr_low ∧
      features.spo2_mean.getD 95 > 95 then
    (false, "Implausible: Low HR with normal SpO2")
  else if features.spo2_mean.getD 100 < 90 ∧ features.hr_mean.getD 70 < 80 then
    (false, "Implausible: Severe hypoxia without tachycardia")
  else
    let sbp := features.sbp_mean.getD 120
    let dbp := features.dbp_mean.getD 80
    if sbp < dbp ∧ sbp > 0 then
      (false, "Implausible: SBP < DBP (sensor error)")
    else
      (true, "")

/-- Embeds `EnhancedRiskScorer.assess_motion_artifact`: returns
`(is_high_motion, motion_std)`. -/
def assess_motion_artifact (s : EnhancedRiskScorer) (features : Features) :
    Bool × ℚ :=
  let motion_std := features.motion_std.getD 0
  let motion_max := features.motion_max.getD 0
  (decide (motion_std > s.motion_threshold ∨ motion_max > 1), motion_std)

/-- The stage-6 composite score of `calculate_risk_score`:
`base_risk = anomaly_score * 100`, `signal_boost = min(abnormal_count*5, 20)`,
`risk_score = min(base_risk + signal_boost, 100)`. -/
def compositeScore (anomaly_score : ℚ) (abnormal_count : Nat) : ℚ :=
  min (anomaly_score * 100 + min ((abnormal_count : ℚ) * 5) 20) 100

/-- Embeds `EnhancedRiskScorer.calculate_risk_score`: the seven-stage
cascade.  Returns the `RiskResult` together with the updated scorer
(stage 7 mutates the alert buffer). -/
def calculate_risk_score (s : EnhancedRiskScorer) (features : Features)
    (anomaly_score confidence : ℚ) : RiskResult × EnhancedRiskScorer :=
  let is_plausible := (s.check_physiological_plausibility features).1
  if ¬ is_plausible then
    ({ risk_score := 0, should_alert := false, stage := .plausibility_failed,
       abnormal_signals := [], critical := false }, s)
  else
    let is_critical := (s.check_critical_condition features).1
    if is_critical ∧ s.critical_override then
      ({ risk_score := 95 + anomaly_score * 5, should_alert := true,
         stage := .critical_override, abnormal_signals := [],
         critical := is_critical }, s)
    else
      let counted := s.count_abnormal_signals features
      let abnormal_count := counted.1
      let abnormal_signals := counted.2
      if (abnormal_count : Int) < s.min_abnormal_signals then
        ({ risk_score := anomaly_score * 50, should_alert := false,
           stage := .insufficient_signals, abnormal_signals := abnormal_signals,
           critical := is_critical }, s)
      else
        let is_high_motion := (s.assess_motion_artifact features).1
        if is_high_motion ∧ ¬ is_critical then
          ({ risk_score := anomaly_score * 40, should_alert := false,
             stage := .motion_artifact, abnormal_signals := abnormal_signals,
             critical := is_critical }, s)
        else if confidence < s.min_confidence ∧ ¬ is_critical then
          ({ risk_score := anomaly_score * 60, should_alert := false,
             stage := .low_confidence, abnormal_signals := abnormal_signals,
             critical := is_critical }, s)
        else
          let risk_score := compositeScore anomaly_score abnormal_count
          let raw_alert := decide (risk_score > 70)
          let stepped := s.alert_buffer.should_alert raw_alert
          let buffered_alert := stepped.1
          let s' := { s with alert_buffer := stepped.2 }
          if buffered_alert then
            ({ risk_score := risk_score, should_alert := true,
               stage := .confirmed_alert, abnormal_signals := abnormal_signals,
               critical := is_critical }, s')
          else
            ({ risk_score := risk_score, should_alert := false,
               stage := .awaiting_confirmation, abnormal_signals := abnormal_signals,
               critical := is_critical }, s')

end EnhancedRiskScorer

/-- The scorer built with the default argument values of
`EnhancedRiskScorer.__init__`: `temporal_buffer_size=3`,
`min_confidence=0.7`, `min_abnormal_signals=2`, `motion_threshold=0.5`,
`critical_override=True`. -/
def defaultScorer : EnhancedRiskScorer :=
  EnhancedRiskScorer.init 3 (7/10) 2 (1/2) true

/-- `defaultScorer` with an arbitrary alert-buffer content, used to state
claims that hold regardless of the temporal buffer's state. -/
def defaultScorerWith (recent : List Bool) : EnhancedRiskScorer :=
  { defaultScorer with
    alert_buffer := { defaultScorer.alert_buffer with recent_alerts := recent } }

/-- Embeds the `RawVitalsSummary` aggregates computed at the top of
`predict` in `src/api/app.py`: `min_spo2`, `max_hr`, `min_sbp`,
`max_sbp` over the cleaned batch. -/
structure RawVitalsSummary where
  min_spo2 : ℚ
  max_hr : ℚ
  min_sbp : ℚ
  max_sbp : ℚ
deriving Repr

/-- Embeds the safety-override section of `predict` in
`src/api/app.py` (lines 61-116): the sequence of threshold checks that
accumulate `safety_score` by `max` and set `safety_triggered`.  Returns
`(safety_triggered, safety_score)`. -/
def safetyGate (v : RawVitalsSummary) : Bool × ℚ :=
  let st0 : Bool × ℚ := (false, 0)
  let st1 := if v.min_spo2 < 90 then (true, max st0.2 95)
             else if v.min_spo2 < 92 then (true, max st0.2 80) else st0
  let st2 := if v.max_hr > 140 then (true, max st1.2 95)
             else if v.max_hr > 120 then (true, max st1.2 75) else st1
  let st3 := if v.min_sbp < 90 then (true, max st2.2 95)
             else if v.min_sbp < 100 then (true, max st2.2 75) else st2
  let st4 := if v.max_sbp > 180 then (true, max st3.2 90) else st3
  let st5 := if v.min_spo2 < 94 ∧ v.max_hr > 110 then (true, max st4.2 85) else st4
  st5

/-- Embeds the JSON body returned by `predict` (the fields the safety
path determines; the confidence field is not modelled). -/
structure PredictOutput where
  anomaly : Bool
  risk_score : ℚ
  safety_override : Bool
deriving Repr, DecidableEq

/-- Embeds the control flow of `predict` in `src/api/app.py` around the
safety gate: when the gate triggers, the response is returned
immediately; otherwise the model-based downstream path (feature
extraction, `predict_anomalies`, `compute_risk_score`) runs, abstracted
here as an arbitrary `downstream` function. -/
def predict (downstream : Unit → PredictOutput) (v : RawVitalsSummary) :
    PredictOutput :=
  let g := safetyGate v
  if g.1 then { anomaly := true, risk_score := g.2, safety_override := true }
  else downstream ()

/-- The Safety Override Gate rule table as written in the spec: each row
independently contributes its score when its condition holds; the list
collects the scores of all triggered rules. -/
def specTableScores (v : RawVitalsSummary) : List ℚ :=
  (if v.min_spo2 < 90 then [(95 : ℚ)] else []) ++
  (if 90 ≤ v.min_spo2 ∧ v.min_spo2 < 92 then [80] else []) ++
  (if v.max_hr > 140 then [95] else []) ++
  (if 120 < v.max_hr ∧ v.max_hr ≤ 140 then [75] else []) ++
  (if v.min_sbp < 90 then [95] else []) ++
  (if 90 ≤ v.min_sbp ∧ v.min_sbp < 100 then [75] else []) ++
  (if v.max_sbp > 180 then [90] else []) ++
  (if v.min_spo2 < 94 ∧ v.max_hr > 110 then [85] else [])

/-- The scorer whose temporal buffer has capacity 0 and the other
configuration values at their defaults. -/
def zeroBufScorer : EnhancedRiskScorer :=
  EnhancedRiskScorer.init 0 (7/10) 2 (1/2) true

/-- The feature window used to witness claim C10: two warning-level
signals, no critical condition, no motion, low anomaly score. -/
def zbWitnessFeatures : Features :=
  { spo2_mean := some 91, sbp_mean := some 99 }

/-- The feature window of the counterexample to claim C1: `spo2_min=87`
is below the critical threshold, but `spo2_mean=85` together with the
defaulted `hr_mean=70` fails the hypoxia-without-tachycardia
plausibility check, which runs first. -/
def cexFeatures : Features := { spo2_mean := some 85, spo2_min := some 87 }

/-- The feature window of the witness to the amended claim C1: severely
low `spo2_min`, plausible means, high motion, low confidence. -/
def c1WitnessFeatures : Features :=
  { spo2_min := some 80, spo2_mean := some 95, motion_std := some 2 }

/-- The feature window of the spec's end-to-end scenario 3 (claim C6):
`spo2_mean=91, spo2_min=88, hr_mean=110, hr_max=125, sbp_mean=105,
motion_std=0.8`. -/
def motionExampleFeatures : Features :=
  { spo2_mean := some 91, spo2_min := some 88, hr_mean := some 110,
    hr_max := some 125, sbp_mean := some 105, motion_std := some (4/5) }

/-- One accumulation step of the safety gate: a triggered rule sets
`safety_triggered` and maxes its candidate score into `safety_score`;
an untriggered rule leaves the state unchanged. -/
def stepRule (st : Bool × ℚ) (c : Option ℚ) : Bool × ℚ :=
  match c with
  | none => st
  | some x => (true, max st.2 x)

/-- The candidate score each rule group of the gate contributes, in the
source's order (each if/elif group produces at most one candidate). -/
def gateRules (v : RawVitalsSummary) : List (Option ℚ) :=
  [ (if v.min_spo2 < 90 then some (95:ℚ) else
      if v.min_spo2 < 92 then some 80 else none),
    (if v.max_hr > 140 then some 95 else
      if v.max_hr > 120 then some 75 else none),
    (if v.min_sbp < 90 then some 95 else
      if v.min_sbp < 100 then some 75 else none),
    (if v.max_sbp > 180 then some 90 else none),
    (if v.min_spo2 < 94 ∧ v.max_hr > 110 then some 85 else none) ]

/-! ### Shared helper lemmas -/

theorem should_alert_buffer_size (b : TemporalAlertBuffer) (x : Bool) :
    ((b.should_alert x).2).buffer_size = b.buffer_size := by
  simp only [TemporalAlertBuffer.should_alert]
  split_ifs <;> rfl

theorem should_alert_length_le (b : TemporalAlertBuffer) (x : Bool)
    (h : (b.recent_alerts.length : Int) ≤ b.buffer_size) :
    (((b.should_alert x).2).recent_alerts.length : Int) ≤ b.buffer_size := by
  simp only [TemporalAlertBuffer.should_alert]
  split_ifs with h1 h2 h3 <;>
    simp_all [List.length_tail, List.length_append]

theorem run_length_le (b : TemporalAlertBuffer) (calls : List Bool)
    (h : (b.recent_alerts.length : Int) ≤ b.buffer_size) :
    (((b.run calls)).recent_alerts.length : Int) ≤ b.buffer_size := by
  induction calls generalizing b with
  | nil => simpa [TemporalAlertBuffer.run] using h
  | cons x xs ih =>
    rw [TemporalAlertBuffer.run]
    have hsz := should_alert_buffer_size b x
    have hlen := should_alert_length_le b x h
    rw [← hsz]
    exact ih _ (by rw [hsz]; exact hlen)

theorem zero_buffer_step (r : Bool) :
    (({ buffer_size := 0, recent_alerts := [] } : TemporalAlertBuffer).should_alert r) =
      (true, { buffer_size := 0, recent_alerts := [] }) := rfl

/-! ### Claims about the temporal alert buffer -/

/-- Claim C3: `TemporalAlertBuffer.should_alert` returns true if and
only if, after pushing the current raw alert and evicting the oldest
entry beyond capacity, the buffer holds exactly `buffer_size` entries
and every entry is true; and from an empty buffer of size 3 the raw
sequence `[true,true,false,true,true,true]` confirms only on the 6th
call. -/
theorem temporal_buffer_alert_iff_full_all_true :
    (∀ (b : TemporalAlertBuffer) (current : Bool),
      ((b.should_alert current).1 = true ↔
        ((((b.should_alert current).2).recent_alerts.length : Int) = b.buffer_size ∧
         ∀ x ∈ ((b.should_alert current).2).recent_alerts, x = true))) ∧
    (TemporalAlertBuffer.init 3).run_outputs [true, true, false, true, true, true] =
      [false, false, false, false, false, true] := by
  refine ⟨?_, rfl⟩
  intro b current
  simp only [TemporalAlertBuffer.should_alert]
  split_ifs with h1 h2 <;> simp_all [List.all_eq_true]

theorem temporal_buffer_alert_iff_full_all_true_witness :
    ((⟨3, [true, true]⟩ : TemporalAlertBuffer).should_alert true).1 = true :=
  (temporal_buffer_alert_iff_full_all_true.1 ⟨3, [true, true]⟩ true).mpr (by decide)

/-- Claim C5: for every `buffer_size` at least 0 and every sequence of
`should_alert` calls starting from a fresh buffer, the internal list
`recent_alerts` never exceeds `buffer_size` entries, and `reset`
empties the buffer unconditionally from any state. -/
theorem buffer_bounded_and_reset_empties (N : Int) (hN : 0 ≤ N) :
    (∀ calls : List Bool,
      ((((TemporalAlertBuffer.init N).run calls)).recent_alerts.length : Int) ≤ N) ∧
    ∀ b : TemporalAlertBuffer, b.reset.recent_alerts = [] := by
  constructor
  · intro calls
    have h := run_length_le (TemporalAlertBuffer.init N) calls
      (by simpa [TemporalAlertBuffer.init] using hN)
    simpa [TemporalAlertBuffer.init] using h
  · intro b
    rfl

theorem buffer_bounded_and_reset_empties_witness :
    ((((TemporalAlertBuffer.init 3).run [true, true, false, true]).recent_alerts.length : Int) ≤ 3) ∧
    (⟨3, [true, true]⟩ : TemporalAlertBuffer).reset.recent_alerts = [] :=
  ⟨(buffer_bounded_and_reset_empties 3 (by norm_num)).1 [true, true, false, true],
   (buffer_bounded_and_reset_empties 3 (by norm_num)).2 ⟨3, [true, true]⟩⟩

/-- Claim C9 (counterexample to the claim as stated): constructing a
`TemporalAlertBuffer` or an `EnhancedRiskScorer` with a negative
`temporal_buffer_size` does not fail: the Python constructors perform no
validation, so construction succeeds and the buffer goes on to produce
per-window behaviour (`should_alert` returns a value). -/
theorem negative_buffer_size_counterexample :
    (TemporalAlertBuffer.init (-1)).buffer_size = -1 ∧
    (TemporalAlertBuffer.init (-1)).recent_alerts = [] ∧
    ((TemporalAlertBuffer.init (-1)).should_alert true).1 = false ∧
    (EnhancedRiskScorer.init (-1) (7/10) 2 (1/2) true).alert_buffer.buffer_size = -1 := by
  refine ⟨rfl, rfl, ?_, rfl⟩
  rfl

/-- Claim C9 (amended): an invalid configuration with a negative
`buffer_size` is accepted silently at construction; the resulting
buffer then exhibits per-window behaviour in which `should_alert`
always returns false (the list length, being nonnegative, never equals
the negative capacity). -/
theorem negative_buffer_size_never_confirms (b : TemporalAlertBuffer)
    (hb : b.buffer_size < 0) (x : Bool) :
    (b.should_alert x).1 = false := by
  simp only [TemporalAlertBuffer.should_alert]
  split_ifs with h1 h2 <;> first | rfl | omega

theorem negative_buffer_size_never_confirms_witness :
    ((⟨-1, []⟩ : TemporalAlertBuffer).should_alert true).1 = false :=
  negative_buffer_size_never_confirms ⟨-1, []⟩ (by norm_num) true

/-- Claim C10: with `buffer_size = 0` the emptied buffer vacuously
satisfies the all-entries-true check, so `should_alert` returns true on
every call, and any window that reaches the temporal stage of
`calculate_risk_score` is returned as `confirmed_alert` with
`alert = true` (even when the composite risk score is at most 70, as
the witness shows). -/
theorem zero_buffer_always_confirms (f : Features) (a c : ℚ)
    (hpl : (zeroBufScorer.check_physiological_plausibility f).1 = true)
    (hcrit : (zeroBufScorer.check_critical_condition f).1 = false)
    (hcnt : ¬ (((zeroBufScorer.count_abnormal_signals f).1 : Int) <
      zeroBufScorer.min_abnormal_signals))
    (hmot : (zeroBufScorer.assess_motion_artifact f).1 = false)
    (hconf : ¬ c < zeroBufScorer.min_confidence) :
    ((zeroBufScorer.calculate_risk_score f a c).1).stage = Stage.confirmed_alert ∧
    ((zeroBufScorer.calculate_risk_score f a c).1).should_alert = true ∧
    ((zeroBufScorer.calculate_risk_score f a c).1).risk_score =
      EnhancedRiskScorer.compositeScore a (zeroBufScorer.count_abnormal_signals f).1 := by
  have hbuf : zeroBufScorer.alert_buffer =
      { buffer_size := 0, recent_alerts := [] } := rfl
  unfold EnhancedRiskScorer.calculate_risk_score
  simp only [hpl, hcrit, hmot, hconf, hcnt]
  simp [hbuf, zero_buffer_step]

theorem zero_buffer_always_confirms_witness :
    ((zeroBufScorer.calculate_risk_score zbWitnessFeatures (3/10) (8/10)).1).stage =
      Stage.confirmed_alert ∧
    ((zeroBufScorer.calculate_risk_score zbWitnessFeatures (3/10) (8/10)).1).should_alert =
      true ∧
    ((zeroBufScorer.calculate_risk_score zbWitnessFeatures (3/10) (8/10)).1).risk_score ≤
      70 := by
  have h := zero_buffer_always_confirms zbWitnessFeatures (3/10) (8/10)
    (by norm_num [EnhancedRiskScorer.check_physiological_plausibility, THRESHOLDS,
      zbWitnessFeatures])
    (by norm_num [EnhancedRiskScorer.check_critical_condition, THRESHOLDS,
      zbWitnessFeatures])
    (by norm_num [EnhancedRiskScorer.count_abnormal_signals, THRESHOLDS,
      zbWitnessFeatures, zeroBufScorer, EnhancedRiskScorer.init])
    (by norm_num [EnhancedRiskScorer.assess_motion_artifact, zbWitnessFeatures,
      zeroBufScorer, EnhancedRiskScorer.init])
    (by norm_num [zeroBufScorer, EnhancedRiskScorer.init])
  refine ⟨h.1, h.2.1, ?_⟩
  rw [h.2.2]
  norm_num [EnhancedRiskScorer.compositeScore, EnhancedRiskScorer.count_abnormal_signals,
    THRESHOLDS, zbWitnessFeatures, min_def]

/-! ### Claims about the scoring cascade -/

/-- Claim C4: for every scorer configuration and buffer state, every
feature dictionary, every `anomaly_score` in [0,1] and every
`confidence`, the risk score returned by `calculate_risk_score` lies in
[0,100] on every branch of the cascade. -/
theorem risk_score_in_range (s : EnhancedRiskScorer) (f : Features) (a c : ℚ)
    (h0 : 0 ≤ a) (h1 : a ≤ 1) :
    0 ≤ ((s.calculate_risk_score f a c).1).risk_score ∧
    ((s.calculate_risk_score f a c).1).risk_score ≤ 100 := by
  have hmin : (0:ℚ) ≤ min (((s.count_abnormal_signals f).1 : ℚ) * 5) 20 :=
    le_min (by positivity) (by norm_num)
  unfold EnhancedRiskScorer.calculate_risk_score
  dsimp only
  split_ifs <;>
    simp only [EnhancedRiskScorer.compositeScore] <;>
    refine ⟨?_, ?_⟩ <;>
    first
      | linarith
      | exact min_le_right _ _
      | exact le_min (by linarith) (by norm_num)

theorem risk_score_in_range_witness :
    0 ≤ ((defaultScorer.calculate_risk_score {} (1/2) (1/2)).1).risk_score ∧
    ((defaultScorer.calculate_risk_score {} (1/2) (1/2)).1).risk_score ≤ 100 :=
  risk_score_in_range defaultScorer {} (1/2) (1/2) (by norm_num) (by norm_num)

/-- Claim C8: with every physiological field absent (all accesses take
their documented defaults), `calculate_risk_score` with the default
configuration returns the insufficient-signals decision
`risk_score = anomaly_score * 50`, `alert = false`, for every
`anomaly_score` and `confidence` — in particular it never returns the
critical-override stage and never alerts. -/
theorem missing_features_insufficient_signals (a c : ℚ) :
    (defaultScorer.calculate_risk_score {} a c).1 =
      { risk_score := a * 50, should_alert := false,
        stage := Stage.insufficient_signals, abnormal_signals := [],
        critical := false } := by
  norm_num [EnhancedRiskScorer.calculate_risk_score,
    EnhancedRiskScorer.check_physiological_plausibility,
    EnhancedRiskScorer.check_critical_condition,
    EnhancedRiskScorer.count_abnormal_signals, defaultScorer,
    EnhancedRiskScorer.init, THRESHOLDS]

/-- Claim C1 (counterexample to the claim as stated): a feature
dictionary with `spo2_min < 88` for which `calculate_risk_score`
returns the plausibility-failed suppression (risk 0, no alert) instead
of the critical override: plausibility filtering precedes the
critical-condition check. -/
theorem critical_override_plausibility_counterexample :
    cexFeatures.spo2_min.getD 100 < 88 ∧
    ((defaultScorer.calculate_risk_score cexFeatures (1/2) (9/10)).1).stage =
      Stage.plausibility_failed ∧
    ((defaultScorer.calculate_risk_score cexFeatures (1/2) (9/10)).1).should_alert = false ∧
    ((defaultScorer.calculate_risk_score cexFeatures (1/2) (9/10)).1).risk_score = 0 := by
  refine ⟨by norm_num [cexFeatures], ?_⟩
  norm_num [EnhancedRiskScorer.calculate_risk_score,
    EnhancedRiskScorer.check_physiological_plausibility, THRESHOLDS, cexFeatures]

/-- Claim C1 (amended): for every feature dictionary with
`spo2_min < 88` that passes the physiological plausibility filter, and
every nonnegative `anomaly_score` and every `confidence`,
`calculate_risk_score` with default configuration returns
`stage = critical_override`, `alert = true` and `risk_score ≥ 95`,
regardless of confidence, motion fields, or the current contents of the
temporal alert buffer. -/
theorem critical_override_after_plausibility (recent : List Bool) (f : Features)
    (a c : ℚ) (hspo2 : f.spo2_min.getD 100 < 88) (h0 : 0 ≤ a)
    (hpl : ((defaultScorerWith recent).check_physiological_plausibility f).1 = true) :
    (((defaultScorerWith recent).calculate_risk_score f a c).1).stage =
      Stage.critical_override ∧
    (((defaultScorerWith recent).calculate_risk_score f a c).1).should_alert = true ∧
    95 ≤ (((defaultScorerWith recent).calculate_risk_score f a c).1).risk_score := by
  have hcrit : ((defaultScorerWith recent).check_critical_condition f).1 = true := by
    unfold EnhancedRiskScorer.check_critical_condition
    rw [if_pos (by simpa [THRESHOLDS] using hspo2)]
  have hov : (defaultScorerWith recent).critical_override = true := rfl
  unfold EnhancedRiskScorer.calculate_risk_score
  simp only [hpl, hcrit, hov, not_true, if_false, true_and, if_true, and_self]
  norm_num
  linarith

theorem critical_override_after_plausibility_witness :
    c1WitnessFeatures.spo2_min.getD 100 < 88 ∧
    (((defaultScorerWith [false]).calculate_risk_score c1WitnessFeatures (1/2) (1/10)).1).stage =
      Stage.critical_override ∧
    (((defaultScorerWith [false]).calculate_risk_score c1WitnessFeatures (1/2) (1/10)).1).should_alert =
      true ∧
    95 ≤ (((defaultScorerWith [false]).calculate_risk_score c1WitnessFeatures (1/2) (1/10)).1).risk_score := by
  have h := critical_override_after_plausibility [false] c1WitnessFeatures (1/2) (1/10)
    (by norm_num [c1WitnessFeatures]) (by norm_num)
    (by norm_num [EnhancedRiskScorer.check_physiological_plausibility, THRESHOLDS,
      c1WitnessFeatures])
  exact ⟨by norm_num [c1WitnessFeatures], h⟩

/-- Claim C6 (counterexample to the claim as stated): on the scenario-3
feature window with `anomaly_score = 0.7` the cascade stops at the
abnormal-signal count (only `spo2_low` fires, 1 < 2), so the returned
stage is `insufficient_signals`, not `motion_artifact`. -/
theorem motion_example_counterexample :
    ((defaultScorer.calculate_risk_score motionExampleFeatures (7/10) (7/10)).1).stage =
      Stage.insufficient_signals ∧
    ((defaultScorer.calculate_risk_score motionExampleFeatures (7/10) (7/10)).1).stage ≠
      Stage.motion_artifact := by
  norm_num [EnhancedRiskScorer.calculate_risk_score,
    EnhancedRiskScorer.check_physiological_plausibility,
    EnhancedRiskScorer.check_critical_condition,
    EnhancedRiskScorer.count_abnormal_signals, defaultScorer,
    EnhancedRiskScorer.init, THRESHOLDS, motionExampleFeatures]
  decide

/-- Claim C6 (amended): on the scenario-3 feature window with
`anomaly_score = 0.7` the engine suppresses the alert, but at the
insufficient-signals stage: `stage = insufficient_signals`,
`alert = false`, `risk_score = 0.7 * 50 = 35`, with only the
`spo2_low` signal abnormal. -/
theorem motion_example_returns_insufficient_signals :
    (defaultScorer.calculate_risk_score motionExampleFeatures (7/10) (7/10)).1 =
      { risk_score := 35, should_alert := false,
        stage := Stage.insufficient_signals, abnormal_signals := ["spo2_low"],
        critical := false } := by
  norm_num [EnhancedRiskScorer.calculate_risk_score,
    EnhancedRiskScorer.check_physiological_plausibility,
    EnhancedRiskScorer.check_critical_condition,
    EnhancedRiskScorer.count_abnormal_signals, defaultScorer,
    EnhancedRiskScorer.init, THRESHOLDS, motionExampleFeatures]

/-- Claim C7: the stage-6 composite score is monotonically
non-decreasing in the anomaly score for a fixed abnormal-signal count:
for `0 ≤ a1 ≤ a2 ≤ 1`, the composite at `a1` is at most the composite
at `a2`. -/
theorem composite_score_monotone (abnormal_count : Nat) (a1 a2 : ℚ)
    (h1 : 0 ≤ a1) (h12 : a1 ≤ a2) (h2 : a2 ≤ 1) :
    EnhancedRiskScorer.compositeScore a1 abnormal_count ≤
      EnhancedRiskScorer.compositeScore a2 abnormal_count := by
  unfold EnhancedRiskScorer.compositeScore
  exact min_le_min (by linarith) le_rfl

theorem composite_score_monotone_witness :
    EnhancedRiskScorer.compositeScore (1/2) 2 ≤
      EnhancedRiskScorer.compositeScore (7/10) 2 :=
  composite_score_monotone 2 (1/2) (7/10) (by norm_num) (by norm_num) (by norm_num)

/-! ### Claim about the safety override gate -/

theorem safetyGate_eq_foldl (v : RawVitalsSummary) :
    safetyGate v = (gateRules v).foldl stepRule (false, 0) := by
  unfold safetyGate gateRules
  split_ifs <;> rfl

theorem foldl_stepRule_fst (os : List (Option ℚ)) (st : Bool × ℚ) :
    (os.foldl stepRule st).1 = (st.1 || os.any Option.isSome) := by
  induction os generalizing st with
  | nil => simp
  | cons o os ih => cases o <;> simp [stepRule, ih, Bool.or_assoc]

theorem foldl_stepRule_snd (os : List (Option ℚ)) (st : Bool × ℚ) :
    (os.foldl stepRule st).2 = (os.filterMap id).foldl max st.2 := by
  induction os generalizing st with
  | nil => simp
  | cons o os ih => cases o <;> simp [stepRule, ih]

theorem any_isSome_iff_filterMap_ne_nil (os : List (Option ℚ)) :
    os.any Option.isSome = true ↔ os.filterMap id ≠ [] := by
  induction os with
  | nil => simp
  | cons o os ih => cases o <;> simp [ih]

theorem filterMap_id_cons (o : Option ℚ) (l : List (Option ℚ)) :
    (o :: l).filterMap id = o.toList ++ l.filterMap id := by
  cases o <;> simp

theorem spo2_group_eq (v : RawVitalsSummary) :
    ((if v.min_spo2 < 90 then [(95:ℚ)] else []) ++
     (if 90 ≤ v.min_spo2 ∧ v.min_spo2 < 92 then [80] else [])) =
    (if v.min_spo2 < 90 then some (95:ℚ) else
      if v.min_spo2 < 92 then some 80 else none).toList := by
  by_cases hA : v.min_spo2 < 90
  · have h90 : ¬ (90 ≤ v.min_spo2) := not_le.mpr hA
    simp [hA, h90]
  · have h90 : 90 ≤ v.min_spo2 := not_lt.mp hA
    by_cases hB : v.min_spo2 < 92 <;> simp [hA, hB, h90]

theorem hr_group_eq (v : RawVitalsSummary) :
    ((if v.max_hr > 140 then [(95:ℚ)] else []) ++
     (if 120 < v.max_hr ∧ v.max_hr ≤ 140 then [75] else [])) =
    (if v.max_hr > 140 then some (95:ℚ) else
      if v.max_hr > 120 then some 75 else none).toList := by
  by_cases hC : v.max_hr > 140
  · have h140 : ¬ (v.max_hr ≤ 140) := not_le.mpr hC
    simp [hC, h140]
  · have h140 : v.max_hr ≤ 140 := not_lt.mp hC
    by_cases hD : v.max_hr > 120 <;> simp [hC, hD, h140]

theorem sbp_group_eq (v : RawVitalsSummary) :
    ((if v.min_sbp < 90 then [(95:ℚ)] else []) ++
     (if 90 ≤ v.min_sbp ∧ v.min_sbp < 100 then [75] else [])) =
    (if v.min_sbp < 90 then some (95:ℚ) else
      if v.min_sbp < 100 then some 75 else none).toList := by
  by_cases hE : v.min_sbp < 90
  · have h90 : ¬ (90 ≤ v.min_sbp) := not_le.mpr hE
    simp [hE, h90]
  · have h90 : 90 ≤ v.min_sbp := not_lt.mp hE
    by_cases hF : v.min_sbp < 100 <;> simp [hE, hF, h90]

theorem ite_toList (p : Prop) [Decidable p] (x : ℚ) :
    (if p then [x] else ([] : List ℚ)) =
      (if p then some x else none).toList := by
  split_ifs <;> rfl

theorem specTable_grouped (v : RawVitalsSummary) :
    specTableScores v =
      ((if v.min_spo2 < 90 then [(95:ℚ)] else []) ++
       (if 90 ≤ v.min_spo2 ∧ v.min_spo2 < 92 then [80] else [])) ++
      (((if v.max_hr > 140 then [(95:ℚ)] else []) ++
        (if 120 < v.max_hr ∧ v.max_hr ≤ 140 then [75] else [])) ++
       (((if v.min_sbp < 90 then [(95:ℚ)] else []) ++
         (if 90 ≤ v.min_sbp ∧ v.min_sbp < 100 then [75] else [])) ++
        ((if v.max_sbp > 180 then [(90:ℚ)] else []) ++
         ((if v.min_spo2 < 94 ∧ v.max_hr > 110 then [(85:ℚ)] else []) ++ [])))) := by
  simp only [specTableScores, List.append_assoc, List.append_nil]

theorem specTable_eq_filterMap (v : RawVitalsSummary) :
    specTableScores v = (gateRules v).filterMap id := by
  rw [specTable_grouped v]
  unfold gateRules
  rw [filterMap_id_cons, filterMap_id_cons, filterMap_id_cons,
    filterMap_id_cons, filterMap_id_cons]
  rw [spo2_group_eq v, hr_group_eq v, sbp_group_eq v,
    ite_toList (v.max_sbp > 180) 90,
    ite_toList (v.min_spo2 < 94 ∧ v.max_hr > 110) 85]
  simp

/-- Claim C2: for every `RawVitalsSummary`, the Safety Override Gate of
`predict` triggers if and only if at least one rule of the spec's table
holds, and its score equals the maximum of the scores of all triggered
rules (`foldl max 0` over the triggered-score list; all rule scores are
positive, so for a nonempty list this is its maximum); when the gate
triggers, `predict` returns the override response without consulting
the downstream model-based path at all. -/
theorem safety_gate_matches_spec_table (v : RawVitalsSummary) :
    ((safetyGate v).1 = true ↔ specTableScores v ≠ []) ∧
    (safetyGate v).2 = (specTableScores v).foldl max 0 ∧
    (∀ downstream : Unit → PredictOutput, (safetyGate v).1 = true →
      predict downstream v =
        { anomaly := true, risk_score := (safetyGate v).2, safety_override := true }) := by
  refine ⟨?_, ?_, ?_⟩
  · rw [safetyGate_eq_foldl v, specTable_eq_filterMap v, foldl_stepRule_fst]
    simpa using any_isSome_iff_filterMap_ne_nil (gateRules v)
  · rw [safetyGate_eq_foldl v, specTable_eq_filterMap v, foldl_stepRule_snd]
  · intro downstream htrig
    simp [predict, htrig]

theorem safety_gate_matches_spec_table_witness :
    (safetyGate ⟨67, 160, 80, 120⟩).1 = true ∧
    (safetyGate ⟨67, 160, 80, 120⟩).2 = 95 ∧
    predict (fun _ => ⟨false, 0, false⟩) ⟨67, 160, 80, 120⟩ =
      { anomaly := true, risk_score := 95, safety_override := true } := by
  have htrig : (safetyGate ⟨67, 160, 80, 120⟩).1 = true := by
    norm_num [safetyGate]
  have hscore : (safetyGate ⟨67, 160, 80, 120⟩).2 = 95 := by
    norm_num [safetyGate, max_def]
  have h := (safety_gate_matches_spec_table ⟨67, 160, 80, 120⟩).2.2
    (fun _ => ⟨false, 0, false⟩) htrig
  exact ⟨htrig, hscore, by rw [h, hscore]⟩
